import Mathlib

/-!
Verification of the tiered CPAP storage and query engine
(columnar writer, LTTB downsampler, streaming ingestor, aggregate
computer, meso/micro query routes) against its design document.

Conventions of the shallow embedding:
* JS numbers and DuckDB numeric columns are modelled as exact rationals
  (`ℚ`); timestamps are integral milliseconds (`ℤ`).
* The parquet directory is a map from file path to an optional list of
  rows; SQL statements over it are modelled as list transformations.
* Fallible operations return `Except` / `Option`.
-/

namespace CpapInsight

/-- Sum of a list of rationals (SQL SUM / JS accumulation). -/
def qSum (l : List ℚ) : ℚ := l.foldr (· + ·) 0

/-- Arithmetic mean of a list of rationals (SQL AVG); 0 on the empty list
(in ℚ, division by zero yields 0). -/
def qAvg (l : List ℚ) : ℚ := qSum l / (l.length : ℚ)

/-- Minimum of a list of rationals, 0 on the empty list (SQL MIN over a
nonempty group; JS Math.min spread). -/
def qMin : List ℚ → ℚ
  | [] => 0
  | x :: xs => xs.foldl min x

/-- Maximum of a list of rationals, 0 on the empty list. -/
def qMax : List ℚ → ℚ
  | [] => 0
  | x :: xs => xs.foldl max x

/-- Insert an element into a list sorted ascending by `key`, after any
elements with an equal key (stable insertion). -/
def insertSortedBy (key : α → ℚ) (x : α) : List α → List α
  | [] => [x]
  | y :: ys => if key y ≤ key x then y :: insertSortedBy key x ys else x :: y :: ys

/-- Stable ascending sort by a rational key. Models both SQL ORDER BY ... ASC
and the JS `sort((a, b) => a - b)` on numeric arrays. -/
def orderBy (key : α → ℚ) : List α → List α
  | [] => []
  | x :: xs => insertSortedBy key x (orderBy key xs)

/-- JS Math.round: round half toward positive infinity. -/
def jsRound (q : ℚ) : Int := ⌊q + 1 / 2⌋

/-- Split a character list at every occurrence of the separator. -/
def jsSplitAux (sep : Char) : List Char → List Char → List (List Char)
  | [], acc => [acc.reverse]
  | c :: cs, acc =>
    if c = sep then acc.reverse :: jsSplitAux sep cs []
    else jsSplitAux sep cs (c :: acc)

/-- Model of JS String.prototype.split with a one-character separator
(the repository only splits on ",", ".", "-", ":" and "T"). -/
def jsSplit (sep : Char) (s : String) : List String :=
  (jsSplitAux sep s.data []).map String.mk

/-- Whitespace recognized by JS String.prototype.trim on the inputs used. -/
def isJsSpace (c : Char) : Bool :=
  c = ' ' || c = '\t' || c = '\n' || c = '\r'

/-- Model of JS String.prototype.trim. -/
def jsTrim (s : String) : String :=
  String.mk (((s.data.dropWhile isJsSpace).reverse.dropWhile isJsSpace).reverse)

/-- ASCII lowering of one character. -/
def jsLowerChar (c : Char) : Char :=
  if 'A' ≤ c ∧ c ≤ 'Z' then Char.ofNat (c.toNat + 32) else c

/-- Model of JS String.prototype.toLowerCase (the headers and event types
this system compares are ASCII). -/
def jsToLower (s : String) : String := String.mk (s.data.map jsLowerChar)

/-- JS String.prototype.includes, for a nonempty search string. -/
def strContains (s sub : String) : Bool :=
  (List.range (s.data.length + 1)).any (fun i => sub.data.isPrefixOf (s.data.drop i))

/-- Interpret a nonempty all-digit character list as a natural number. -/
def digitsToNat? (s : List Char) : Option Nat :=
  if s.length > 0 && s.all Char.isDigit then
    some (s.foldl (fun a c => a * 10 + (c.toNat - 48)) 0)
  else none

/-- Model of JS parseFloat restricted to plain decimal literals
(optional sign, digits, optional fractional digits); `none` models NaN.
The repository only feeds this function comma-separated numeric cells. -/
def parseDecimal? (s : String) : Option ℚ :=
  let core : List Char → Option ℚ := fun t =>
    match jsSplitAux '.' t [] with
    | [w] => (digitsToNat? w).map (fun n => (n : ℚ))
    | [w, f] =>
      match digitsToNat? w, digitsToNat? f with
      | some n, some m => some ((n : ℚ) + (m : ℚ) / ((10 : ℚ) ^ f.length))
      | _, _ => none
    | _ => none
  match s.data with
  | '-' :: rest => (core rest).map (fun q => -q)
  | t => core t

/-- Days since 1970-01-01 of a proleptic Gregorian civil date
(floor-division form of the standard civil-from-days algorithm). -/
def daysFromCivil (y m d : Int) : Int :=
  let y2 := if m ≤ 2 then y - 1 else y
  let era := Int.fdiv y2 400
  let yoe := y2 - era * 400
  let mp := Int.emod (m + 9) 12
  let doy := Int.fdiv (153 * mp + 2) 5 + d - 1
  let doe := yoe * 365 + Int.fdiv yoe 4 - Int.fdiv yoe 100 + doy
  era * 146097 + doe - 719468

/-- Parse the date component "YYYY-MM-DD" of an ISO-8601 timestamp into
days since epoch. -/
def parseDatePart? (ds : List Char) : Option Int :=
  match jsSplitAux '-' ds [] with
  | [ys, ms, dstr] =>
    match digitsToNat? ys, digitsToNat? ms, digitsToNat? dstr with
    | some y, some m, some d =>
      if ys.length = 4 && ms.length = 2 && dstr.length = 2 &&
          1 ≤ m && m ≤ 12 && 1 ≤ d && d ≤ 31 then
        some (daysFromCivil (y : Int) (m : Int) (d : Int))
      else none
    | _, _, _ => none
  | _ => none

/-- Parse the time component "hh:mm:ss(.mmm)?(Z)?" of an ISO-8601 timestamp
into milliseconds past midnight. -/
def parseTimePart? (t0 : List Char) : Option Int :=
  let t := if t0.getLast? = some 'Z' then t0.dropLast else t0
  match jsSplitAux ':' t [] with
  | [hh, mm, rest] =>
    let ssms : Option (Nat × Nat) :=
      match jsSplitAux '.' rest [] with
      | [ss] => (digitsToNat? ss).map (fun a => (a, 0))
      | [ss, frac] =>
        match digitsToNat? ss, digitsToNat? frac with
        | some a, some b => if frac.length = 3 then some (a, b) else none
        | _, _ => none
      | _ => none
    match digitsToNat? hh, digitsToNat? mm, ssms with
    | some h, some mi, some (se, ms) =>
      if h < 24 && mi < 60 && se < 60 && hh.length = 2 && mm.length = 2 then
        some ((h : Int) * 3600000 + (mi : Int) * 60000 + (se : Int) * 1000 + (ms : Int))
      else none
    | _, _, _ => none
  | _ => none

/-- Model of the JS Date constructor on the ISO-8601 inputs this system
ingests ("YYYY-MM-DD" or "YYYY-MM-DDThh:mm:ss(.mmm)?(Z)?", taken as UTC):
milliseconds since epoch, or `none` for an Invalid Date. -/
def jsDate? (s : String) : Option Int :=
  match jsSplitAux 'T' s.data [] with
  | [datePart] => (parseDatePart? datePart).map (fun d => d * 86400000)
  | [datePart, timePart] =>
    match parseDatePart? datePart, parseTimePart? timePart with
    | some d, some t => some (d * 86400000 + t)
    | _, _ => none
  | _ => none

/-- Truncation of a millisecond timestamp to its UTC calendar day, as done
by `new Date(ts).toISOString().split('T')[0]`; the day is represented by
its index since epoch. -/
def utcDay (ts : Int) : Int := Int.fdiv ts 86400000

/-! ## duckdb-service: columnar writer, meso/micro queries, LTTB -/

/-- A raw CPAP sample as stored by the Tier 3 columnar writer
(temp_samples schema: timestamp BIGINT, flow_rate FLOAT, pressure FLOAT,
leak_rate FLOAT, mask_on INTEGER; numeric columns modelled as exact ℚ). -/
structure RawSample where
  timestamp : Int
  flow_rate : ℚ
  pressure : ℚ
  leak_rate : ℚ
  mask_on : ℚ
deriving DecidableEq, Repr, Inhabited

/-- The parquet directory, modelled as a map from file path to the list of
rows of the file at that path (none = no such file). -/
def FileStore : Type := String → Option (List RawSample)

/-- An empty parquet directory. -/
def FileStore.empty : FileStore := fun _ => none

/-- Mirrors getParquetPath: PARQUET_DIR/<sessionId>.parquet. -/
def getParquetPath (sessionId : String) : String :=
  "data/parquet/" ++ sessionId ++ ".parquet"

/-- Mirrors writeToParquet: stage the batch in a CREATE OR REPLACE temp
table and COPY it to the parquet path of the session, which replaces any
file already at that path; resolves with the path. -/
def writeToParquet (store : FileStore) (sessionId : String)
    (samples : List RawSample) : FileStore × String :=
  let parquetPath := getParquetPath sessionId
  (fun p => if p = parquetPath then some samples else store p, parquetPath)

/-- Mirrors parquetExists. -/
def parquetExists (store : FileStore) (sessionId : String) : Bool :=
  (store (getParquetPath sessionId)).isSome

/-- One output row of the Meso query. -/
structure MesoRow where
  bucket_start : ℚ
  flow_min : ℚ
  flow_max : ℚ
  flow_avg : ℚ
  pressure_avg : ℚ
  leak_max : ℚ
  mask_on_pct : ℚ
deriving DecidableEq, Repr

/-- The grouping key of the Meso SQL query,
(timestamp / bucketMs) * bucketMs. The division operator of DuckDB on
integer operands is float division (integer division is the separate //
operator), so this key reproduces the timestamp itself rather than
flooring it to a bucket boundary; modelled exactly over ℚ. -/
def mesoBucketStart (bucketMs : Int) (ts : Int) : ℚ :=
  ((ts : ℚ) / (bucketMs : ℚ)) * (bucketMs : ℚ)

/-- The bucket key the design document prescribes:
floor(timestamp / bucketMs) * bucketMs. -/
def specBucketStart (bucketMs : Int) (ts : Int) : Int :=
  Int.fdiv ts bucketMs * bucketMs

/-- Mirrors getMesoView: rejects a session with no parquet file, otherwise
groups the rows of the file by the bucket key and aggregates each group
(MIN/MAX/AVG flow, AVG pressure, MAX leak, AVG mask_on * 100), ordered by
bucket_start ascending. -/
def getMesoView (store : FileStore) (sessionId : String)
    (bucketSeconds : Int) : Except String (List MesoRow) :=
  match store (getParquetPath sessionId) with
  | none => .error ("Parquet file not found for session: " ++ sessionId)
  | some rows =>
    let bucketMs := bucketSeconds * 1000
    let keys := orderBy id ((rows.map (fun s => mesoBucketStart bucketMs s.timestamp)).dedup)
    .ok (keys.map (fun k =>
      let group := rows.filter (fun s => decide (mesoBucketStart bucketMs s.timestamp = k))
      { bucket_start := k
        flow_min := qMin (group.map (fun s => s.flow_rate))
        flow_max := qMax (group.map (fun s => s.flow_rate))
        flow_avg := qAvg (group.map (fun s => s.flow_rate))
        pressure_avg := qAvg (group.map (fun s => s.pressure))
        leak_max := qMax (group.map (fun s => s.leak_rate))
        mask_on_pct := qAvg (group.map (fun s => s.mask_on)) * 100 }))

/-- Mirrors getMicroView: rejects a session with no parquet file, otherwise
returns the rows with startTime <= timestamp <= endTime (predicate
pushdown), ordered by timestamp ascending. -/
def getMicroView (store : FileStore) (sessionId : String)
    (startTime endTime : Int) : Except String (List RawSample) :=
  match store (getParquetPath sessionId) with
  | none => .error ("Parquet file not found for session: " ++ sessionId)
  | some rows =>
    .ok (orderBy (fun s => (s.timestamp : ℚ))
      (rows.filter (fun s => decide (startTime ≤ s.timestamp ∧ s.timestamp ≤ endTime))))

/-- A timestamp/value pair as consumed by lttbDownsample. -/
structure Point where
  timestamp : ℚ
  value : ℚ
deriving DecidableEq, Repr, Inhabited

/-- The triangle-area formula of the LTTB selection loop (the factor 0.5 of
the source is kept). -/
def triArea (pointAX pointAY avgX avgY : ℚ) (p : Point) : ℚ :=
  |(pointAX - avgX) * (p.value - pointAY) - (pointAX - p.timestamp) * (avgY - pointAY)| * (1 / 2)

/-- One iteration of the LTTB selection loop: the index chosen in iteration
i given the previously selected index a. Mirrors the source: the candidate
range is floor((i+1)*bucketSize)+1 up to (exclusive)
min(floor((i+2)*bucketSize)+1, n-1); the lookahead average is taken over
the following range, divided by (nextBucketSize or 1 when zero); maxArea
starts at -1 and maxAreaIndex at the start of the candidate range. -/
def lttbSelectIndex (data : List Point) (bucketSize : ℚ) (i a : Nat) : Nat :=
  let n := data.length
  let bucketStart := (⌊((i : ℚ) + 1) * bucketSize⌋ + 1).toNat
  let bucketEnd := min ((⌊((i : ℚ) + 2) * bucketSize⌋ + 1).toNat) (n - 1)
  let nextBucketStart := (⌊((i : ℚ) + 2) * bucketSize⌋ + 1).toNat
  let nextBucketEnd := min ((⌊((i : ℚ) + 3) * bucketSize⌋ + 1).toNat) (n - 1)
  let nextBucketSize : Int := (nextBucketEnd : Int) - (nextBucketStart : Int)
  let nextRange := (List.range (nextBucketEnd - nextBucketStart)).map (fun j => j + nextBucketStart)
  let divisor : Int := if nextBucketSize = 0 then 1 else nextBucketSize
  let avgX := qSum (nextRange.map (fun j => (data.getD j default).timestamp)) / (divisor : ℚ)
  let avgY := qSum (nextRange.map (fun j => (data.getD j default).value)) / (divisor : ℚ)
  let pointA := data.getD a default
  let candidates := (List.range (bucketEnd - bucketStart)).map (fun j => j + bucketStart)
  (candidates.foldl
    (fun acc j =>
      let area := triArea pointA.timestamp pointA.value avgX avgY (data.getD j default)
      if acc.1 < area then (area, j) else acc)
    ((-1 : ℚ), bucketStart)).2

/-- The LTTB selection loop: starting at iteration i with previously
selected index a, run the given number of remaining iterations, emitting
the point selected by each one. -/
def lttbLoop (data : List Point) (bucketSize : ℚ) : Nat → Nat → Nat → List Point
  | _, _, 0 => []
  | i, a, fuel + 1 =>
    let idx := lttbSelectIndex data bucketSize i a
    data.getD idx default :: lttbLoop data bucketSize (i + 1) idx fuel

/-- Mirrors lttbDownsample: the input is returned unchanged when its length
is at most targetPoints; otherwise the first point, targetPoints - 2
selected points, and the last point. -/
def lttbDownsample (data : List Point) (targetPoints : Int) : List Point :=
  if (data.length : Int) ≤ targetPoints then data
  else
    let bucketSize : ℚ := ((data.length : ℚ) - 2) / ((targetPoints : ℚ) - 2)
    data.getD 0 default ::
      (lttbLoop data bucketSize 0 0 (targetPoints - 2).toNat ++ [data.getD (data.length - 1) default])

/-! ## streaming-ingest: CSV parsing, session accumulation, aggregates -/

/-- Mirrors StreamingIngestResult. The date range is a pair of calendar
days (day index since epoch). -/
structure StreamingIngestResult where
  nightsImported : Nat
  samplesProcessed : Nat
  eventsImported : Nat
  parquetFiles : List String
  errors : List String
  dateRange : Option (Int × Int)
deriving DecidableEq, Repr

/-- An event row accumulated by a session. -/
structure EventRec where
  timestamp : String
  event_type : String
  duration : ℚ
  severity : ℚ
deriving DecidableEq, Repr

/-- The running statistics of a session accumulator. -/
structure SessionStats where
  pressures : List ℚ
  leaks : List ℚ
  flowLimitations : List ℚ
  maskOnCount : Nat
  totalCount : Nat
deriving DecidableEq, Repr

/-- Mirrors SessionAccumulator. The date is a calendar-day index. -/
structure SessionAccumulator where
  sessionId : String
  date : Int
  samples : List RawSample
  events : List EventRec
  stats : SessionStats
deriving DecidableEq, Repr

/-- A fresh session accumulator. -/
def newAccumulator (sessionId : String) (date : Int) : SessionAccumulator :=
  { sessionId, date, samples := [], events := [],
    stats := { pressures := [], leaks := [], flowLimitations := [],
               maskOnCount := 0, totalCount := 0 } }

/-- One row of the nightly_aggregates store. -/
structure NightlyAggregate where
  date : Int
  session_id : String
  total_usage_minutes : ℚ
  mask_on_minutes : ℚ
  median_pressure : ℚ
  min_pressure : ℚ
  max_pressure : ℚ
  pressure_95th_percentile : ℚ
  median_leak_rate : ℚ
  max_leak_rate : ℚ
  leak_95th_percentile : ℚ
  large_leak_minutes : ℚ
  large_leak_percent : ℚ
  ahi : ℚ
  apnea_count : Nat
  hypopnea_count : Nat
  total_events : Nat
  median_flow_limitation : ℚ
  max_flow_limitation : ℚ
  sleep_quality_score : ℚ
  parquet_path : String
deriving DecidableEq, Repr

/-- One row of the cpap_events table:
(timestamp, event_type, duration_seconds, severity, session_id). -/
structure CpapEventRow where
  timestamp : String
  event_type : String
  duration_seconds : ℚ
  severity : ℚ
  session_id : String
deriving DecidableEq, Repr

/-- Modelled from the spec: the nightly_aggregates table is created in
lib/db, which is not under src/; per the design document it has one row
per calendar date (unique key = date), so INSERT OR REPLACE replaces any
existing row with the same date. -/
def insertOrReplaceAggregate (rows : List NightlyAggregate)
    (row : NightlyAggregate) : List NightlyAggregate :=
  rows.filter (fun r => decide (r.date ≠ row.date)) ++ [row]

/-- Mirrors the row record produced by parseRow: the timestamp cell is kept
as a raw string, numeric cells are parsed with parseFloat (NaN coerced to
0 by the || 0), and a field is present only when its header exists and the
cell is a nonempty string (for the timestamp: only when the header
exists). parseRow never reads a flow_rate cell. -/
structure ParsedRow where
  timestamp : Option String := none
  leak_rate : Option ℚ := none
  pressure : Option ℚ := none
  flow_limitation : Option ℚ := none
  mask_on : Option ℚ := none
  event_duration : Option ℚ := none
  event_severity : Option ℚ := none
  event_type : Option String := none
deriving DecidableEq, Repr

/-- JS Array.prototype.indexOf on a list of strings (-1 when missing). -/
def jsIndexOf (l : List String) (s : String) : Int :=
  match l.findIdx? (fun h => h = s) with
  | some n => (n : Int)
  | none => -1

/-- Look up one numeric field the way the parseRow loop does:
idx = headers.indexOf(field); included when idx is not -1 and values[idx]
is a nonempty string, with value parseFloat(values[idx]) || 0. -/
def numField (headers values : List String) (field : String) : Option ℚ :=
  match headers.findIdx? (fun h => h = field) with
  | some idx =>
    let v := values.getD idx ""
    if v = "" then none
    else some ((parseDecimal? v).getD 0)
  | none => none

/-- Mirrors parseRow. -/
def parseRow (headers values : List String) : ParsedRow :=
  let timestamp :=
    match headers.findIdx? (fun h => h = "timestamp") with
    | some idx => some (values.getD idx "")
    | none => none
  let event_type :=
    match headers.findIdx? (fun h => h = "event_type") with
    | some idx =>
      let v := values.getD idx ""
      if v = "" then none else some v
    | none => none
  { timestamp
    leak_rate := numField headers values "leak_rate"
    pressure := numField headers values "pressure"
    flow_limitation := numField headers values "flow_limitation"
    mask_on := numField headers values "mask_on"
    event_duration := numField headers values "event_duration"
    event_severity := numField headers values "event_severity"
    event_type }

/-- Mirrors calculateMedian: 0 on empty input, otherwise the middle element
of a sorted copy for odd length and the mean of the two middle elements
for even length. -/
def calculateMedian (values : List ℚ) : ℚ :=
  if values.length = 0 then 0
  else
    let sorted := orderBy id values
    let mid := sorted.length / 2
    if sorted.length % 2 = 0 then (sorted.getD (mid - 1) 0 + sorted.getD mid 0) / 2
    else sorted.getD mid 0

/-- Mirrors calculatePercentile: 0 on empty input, otherwise the element of
a sorted copy at index ceil(N * percentile) - 1 clamped below at 0 (there
is no upper clamp in the source; an out-of-range index is modelled by the
default 0, the source would read undefined). -/
def calculatePercentile (values : List ℚ) (percentile : ℚ) : ℚ :=
  if values.length = 0 then 0
  else
    let sorted := orderBy id values
    let index := ⌈(sorted.length : ℚ) * percentile⌉ - 1
    sorted.getD (max 0 index).toNat 0

/-- Mirrors calculateSleepQualityScore (the metrics object is passed as
four arguments). Deductions: min(30, (ahi-5)*2) when ahi > 5; additionally
min(20, ahi-15) when ahi > 15; min(20, largeLeakPercent) when
largeLeakPercent > 10; min(30, 80-usagePercent) when usagePercent < 80,
usagePercent being maskOnMinutes/totalMinutes*100 guarded to 0 when
totalMinutes is 0. Result Math.max(0, Math.min(100, Math.round(score))). -/
def calculateSleepQualityScore (ahi largeLeakPercent maskOnMinutes totalMinutes : ℚ) : ℚ :=
  let score : ℚ := 100
  let score := if ahi > 5 then score - min 30 ((ahi - 5) * 2) else score
  let score := if ahi > 15 then score - min 20 ((ahi - 15) * 1) else score
  let score := if largeLeakPercent > 10 then score - min 20 largeLeakPercent else score
  let usagePercent := if totalMinutes > 0 then maskOnMinutes / totalMinutes * 100 else 0
  let score := if usagePercent < 80 then score - min 30 (80 - usagePercent) else score
  max 0 (min 100 ((jsRound score : ℚ)))

/-- The aggregate record flushSession computes from a sealed accumulator
with a nonzero sample count (lines 274-335 of streaming-ingest.ts,
factored out of flushSession so theorems can speak about the math). -/
def computeNightlyAggregate (session : SessionAccumulator)
    (parquetPath : String) : NightlyAggregate :=
  let stats := session.stats
  let totalMinutes := (stats.totalCount : ℚ) / 25 / 60
  let maskOnMinutes := (stats.maskOnCount : ℚ) / 25 / 60
  let medianPressure := calculateMedian stats.pressures
  let minPressure := if stats.pressures.length > 0 then qMin stats.pressures else 0
  let maxPressure := if stats.pressures.length > 0 then qMax stats.pressures else 0
  let pressure95th := calculatePercentile stats.pressures (95 / 100)
  let medianLeak := calculateMedian stats.leaks
  let maxLeak := if stats.leaks.length > 0 then qMax stats.leaks else 0
  let leak95th := calculatePercentile stats.leaks (95 / 100)
  let largeLeakCount := (stats.leaks.filter (fun l => decide (l > 24))).length
  let largeLeakMinutes := (largeLeakCount : ℚ) / 25 / 60
  let largeLeakPercent := if totalMinutes > 0 then largeLeakMinutes / totalMinutes * 100 else 0
  let apneaCount :=
    (session.events.filter (fun e => strContains (jsToLower e.event_type) "apnea")).length
  let hypopneaCount :=
    (session.events.filter (fun e => strContains (jsToLower e.event_type) "hypopnea")).length
  let totalEvents := session.events.length
  let usageHours := maskOnMinutes / 60
  let ahi := if usageHours > 0 then (totalEvents : ℚ) / usageHours else 0
  let medianFlow := calculateMedian stats.flowLimitations
  let maxFlow := if stats.flowLimitations.length > 0 then qMax stats.flowLimitations else 0
  let sleepQualityScore :=
    calculateSleepQualityScore ahi largeLeakPercent maskOnMinutes totalMinutes
  { date := session.date
    session_id := session.sessionId
    total_usage_minutes := totalMinutes
    mask_on_minutes := maskOnMinutes
    median_pressure := medianPressure
    min_pressure := minPressure
    max_pressure := maxPressure
    pressure_95th_percentile := pressure95th
    median_leak_rate := medianLeak
    max_leak_rate := maxLeak
    leak_95th_percentile := leak95th
    large_leak_minutes := largeLeakMinutes
    large_leak_percent := largeLeakPercent
    ahi
    apnea_count := apneaCount
    hypopnea_count := hypopneaCount
    total_events := totalEvents
    median_flow_limitation := medianFlow
    max_flow_limitation := maxFlow
    sleep_quality_score := sleepQualityScore
    parquet_path := parquetPath }

/-- The full mutable state of one ingestion pass. The sessions map of the
source holds at most one live accumulator (the previous one is flushed and
deleted the moment the date changes), so it is modelled by an optional
current accumulator. -/
structure IngestState where
  result : StreamingIngestResult
  store : FileStore
  aggregates : List NightlyAggregate
  cpapEvents : List CpapEventRow
  headers : List String
  lineNumber : Nat
  currentDate : Option Int
  currentSession : Option SessionAccumulator
  uuidCounter : Nat
  dates : List Int

/-- Mirrors appendToParquet: a no-op on an empty buffer, otherwise one
writeToParquet call for the whole buffer. -/
def appendToParquet (store : FileStore) (session : SessionAccumulator) : FileStore :=
  if session.samples.length = 0 then store
  else (writeToParquet store session.sessionId session.samples).1

/-- Mirrors flushSession: write the remaining samples, record the parquet
path in the report unconditionally, insert the events, then compute and
upsert the nightly aggregate unless the accumulator saw zero samples. -/
def flushSession (st : IngestState) (session : SessionAccumulator) : IngestState :=
  let store :=
    if session.samples.length > 0 then appendToParquet st.store session else st.store
  let parquetPath := getParquetPath session.sessionId
  let result := { st.result with parquetFiles := st.result.parquetFiles ++ [parquetPath] }
  let cpapEvents := st.cpapEvents ++ session.events.map (fun e =>
    { timestamp := e.timestamp, event_type := e.event_type,
      duration_seconds := e.duration, severity := e.severity,
      session_id := session.sessionId })
  let result := { result with eventsImported := result.eventsImported + session.events.length }
  if session.stats.totalCount = 0 then
    { st with store := store, result := result, cpapEvents := cpapEvents }
  else
    let agg := computeNightlyAggregate session parquetPath
    { st with
      store := store
      cpapEvents := cpapEvents
      result := { result with nightsImported := result.nightsImported + 1 }
      aggregates := insertOrReplaceAggregate st.aggregates agg }

/-- The outcome of processing one line: continue with the next line, or
abort the stream (a thrown exception reaching the top-level catch). -/
inductive StepOut where
  | next (st : IngestState)
  | abort (st : IngestState) (msg : String)

/-- The sessionId of the source is rowDate-uuidSlice; the uuid is modelled
by a deterministic counter and the date by its day index. -/
def mkSessionId (rowDate : Int) (counter : Nat) : String :=
  toString rowDate ++ "-" ++ toString counter

/-- Process the sample-or-event part of a data row (lines 153-187 of
streaming-ingest.ts), given the already-resolved accumulator. -/
def processClassifiedRow (st : IngestState) (session : SessionAccumulator)
    (row : ParsedRow) (tsStr : String) (ts : Int) : IngestState :=
  match row.event_type with
  | some et =>
    let session := { session with events := session.events ++
      [{ timestamp := tsStr, event_type := et,
         duration := row.event_duration.getD 0,
         severity := row.event_severity.getD 0 }] }
    { st with currentSession := some session }
  | none =>
    let sample : RawSample :=
      { timestamp := ts
        flow_rate := 0
        pressure := row.pressure.getD 0
        leak_rate := row.leak_rate.getD 0
        mask_on := row.mask_on.getD 0 }
    let stats := session.stats
    let stats :=
      { stats with
        pressures := match row.pressure with
          | some p => stats.pressures ++ [p] | none => stats.pressures
        leaks := match row.leak_rate with
          | some l => stats.leaks ++ [l] | none => stats.leaks
        flowLimitations := match row.flow_limitation with
          | some f => stats.flowLimitations ++ [f] | none => stats.flowLimitations
        maskOnCount := if row.mask_on = some 1 then stats.maskOnCount + 1 else stats.maskOnCount
        totalCount := stats.totalCount + 1 }
    let session := { session with samples := session.samples ++ [sample], stats }
    let st := { st with result :=
      { st.result with samplesProcessed := st.result.samplesProcessed + 1 } }
    if session.samples.length ≥ 50000 then
      let store := appendToParquet st.store session
      { st with store := store, currentSession := some { session with samples := [] } }
    else
      { st with currentSession := some session }

/-- Mirrors one iteration of the line loop of ingestCPAPStreamingCSV:
skip blank lines, take line one as the header row, skip rows whose cell
count differs from the header or whose timestamp cell is absent or empty,
abort the stream when a nonempty timestamp cell is not a parseable date
(toISOString throws on an Invalid Date and the top-level catch stops the
loop), otherwise open a new session when the calendar date changes
(flushing the previous one) and classify the row as event or sample. -/
def processLine (st0 : IngestState) (line : String) : StepOut :=
  let st := { st0 with lineNumber := st0.lineNumber + 1 }
  if jsTrim line = "" then .next st
  else if st.lineNumber = 1 then
    .next { st with headers := (jsSplit ',' line).map (fun h => jsToLower (jsTrim h)) }
  else
    let values := (jsSplit ',' line).map jsTrim
    if values.length ≠ st.headers.length then .next st
    else
      let row := parseRow st.headers values
      match row.timestamp with
      | none => .next st
      | some tsStr =>
        if tsStr = "" then .next st
        else
          match jsDate? tsStr with
          | none => .abort st "Streaming ingest failed: RangeError: Invalid time value"
          | some ts =>
            let rowDate := utcDay ts
            let st :=
              if st.currentDate ≠ some rowDate then
                let st :=
                  match st.currentSession with
                  | some sess => { flushSession st sess with currentSession := none }
                  | none => st
                let sid := mkSessionId rowDate st.uuidCounter
                { st with
                  currentDate := some rowDate
                  currentSession := some (newAccumulator sid rowDate)
                  uuidCounter := st.uuidCounter + 1
                  dates := if rowDate ∈ st.dates then st.dates else st.dates ++ [rowDate] }
              else st
            match st.currentSession with
            | none => .next st
            | some session => .next (processClassifiedRow st session row tsStr ts)

/-- Run the line loop, stopping at an abort (the thrown error message is
pushed onto the error list by the top-level catch). -/
def runLines (st : IngestState) : List String → IngestState × Bool
  | [] => (st, false)
  | l :: ls =>
    match processLine st l with
    | .next st2 => runLines st2 ls
    | .abort st2 msg =>
      ({ st2 with result := { st2.result with errors := st2.result.errors ++ [msg] } }, true)

/-- The initial ingestion state over a given parquet directory and
aggregate store. -/
def initialState (store : FileStore) (aggregates : List NightlyAggregate) : IngestState :=
  { result := { nightsImported := 0, samplesProcessed := 0, eventsImported := 0,
                parquetFiles := [], errors := [], dateRange := none }
    store
    aggregates
    cpapEvents := []
    headers := []
    lineNumber := 0
    currentDate := none
    currentSession := none
    uuidCounter := 0
    dates := [] }

/-- Mirrors ingestCPAPStreamingCSV on the list of lines of the input
stream: run the loop; unless it aborted, flush the final session and
compute the date range from the set of dates seen. -/
def ingestCPAPStreamingCSV (store : FileStore)
    (aggregates : List NightlyAggregate) (lines : List String) : IngestState :=
  let run := runLines (initialState store aggregates) lines
  let st := run.1
  if run.2 then st
  else
    let st :=
      match st.currentSession with
      | some sess => { flushSession st sess with currentSession := none }
      | none => st
    if st.dates.length > 0 then
      let sortedDates := orderBy (fun d : Int => (d : ℚ)) st.dates
      let range := some (sortedDates.getD 0 0, sortedDates.getD (sortedDates.length - 1) 0)
      { st with result := { st.result with dateRange := range } }
    else st

/-! ## API routes: GET meso and GET micro -/

/-- Mirrors isDemoSession. -/
def isDemoSession (sessionId : String) : Bool :=
  "demo-".data.isPrefixOf sessionId.data

/-- Look up the session row the routes read from nightly_aggregates. -/
def findSession (aggregates : List NightlyAggregate) (sessionId : String) :
    Option NightlyAggregate :=
  aggregates.find? (fun r => decide (r.session_id = sessionId))

/-- The JSON response of the meso route, reduced to the fields the claims
are about, plus the HTTP status. -/
structure MesoResponse where
  status : Nat
  error : Option String
  totalBuckets : Nat
  data : List MesoRow
  isDemo : Bool
deriving Repr

/-- Mirrors GET /api/session/[id]/meso: 400 for a bucket size outside
1..300, 404 when no nightly_aggregates row has the session id, the
synthetic branch for demo- sessions (its generator is demo cosmetics,
outside the core; the branch is marked by isDemo and carries no data
here), otherwise getMesoView with any thrown error caught as a 500. -/
def mesoGET (aggregates : List NightlyAggregate) (store : FileStore)
    (sessionId : String) (bucketSeconds : Int) : MesoResponse :=
  if bucketSeconds < 1 ∨ bucketSeconds > 300 then
    { status := 400, error := some "Bucket size must be between 1 and 300 seconds",
      totalBuckets := 0, data := [], isDemo := false }
  else
    match findSession aggregates sessionId with
    | none =>
      { status := 404, error := some "Session not found",
        totalBuckets := 0, data := [], isDemo := false }
    | some _ =>
      if isDemoSession sessionId then
        { status := 200, error := none, totalBuckets := 0, data := [], isDemo := true }
      else
        match getMesoView store sessionId bucketSeconds with
        | .error msg =>
          { status := 500, error := some msg, totalBuckets := 0, data := [], isDemo := false }
        | .ok rows =>
          { status := 200, error := none, totalBuckets := rows.length,
            data := rows, isDemo := false }

/-- The JSON response of the micro route, reduced to the fields the claims
are about, plus the HTTP status. -/
structure MicroResponse where
  status : Nat
  error : Option String
  originalPoints : Nat
  returnedPoints : Nat
  downsampled : Bool
  data : List RawSample
  isDemo : Bool
deriving Repr

/-- Mirrors GET /api/session/[id]/micro: 400 when either timestamp is
falsy (0) or end <= start, target points capped at 10000, 404 when no
nightly_aggregates row has the session id, the synthetic branch for demo-
sessions, otherwise getMicroView (errors caught as 500) followed by LTTB
on the flow channel and projection of the selected timestamps when the
row count exceeds the cap. -/
def microGET (aggregates : List NightlyAggregate) (store : FileStore)
    (sessionId : String) (startTime endTime targetPoints : Int) : MicroResponse :=
  if startTime = 0 ∨ endTime = 0 then
    { status := 400, error := some "Start and end timestamps are required",
      originalPoints := 0, returnedPoints := 0, downsampled := false,
      data := [], isDemo := false }
  else if endTime ≤ startTime then
    { status := 400, error := some "End time must be after start time",
      originalPoints := 0, returnedPoints := 0, downsampled := false,
      data := [], isDemo := false }
  else
    let maxPoints := min targetPoints 10000
    match findSession aggregates sessionId with
    | none =>
      { status := 404, error := some "Session not found",
        originalPoints := 0, returnedPoints := 0, downsampled := false,
        data := [], isDemo := false }
    | some _ =>
      if isDemoSession sessionId then
        { status := 200, error := none, originalPoints := 0, returnedPoints := 0,
          downsampled := false, data := [], isDemo := true }
      else
        match getMicroView store sessionId startTime endTime with
        | .error msg =>
          { status := 500, error := some msg, originalPoints := 0,
            returnedPoints := 0, downsampled := false, data := [], isDemo := false }
        | .ok rawData =>
          let responseData :=
            if (rawData.length : Int) > maxPoints then
              let flowData := rawData.map (fun r =>
                Point.mk (r.timestamp : ℚ) r.flow_rate)
              let downsampledFlow := lttbDownsample flowData maxPoints
              let downsampledTimestamps := downsampledFlow.map (fun d => d.timestamp)
              rawData.filter (fun r => decide ((r.timestamp : ℚ) ∈ downsampledTimestamps))
            else rawData
          { status := 200, error := none
            originalPoints := rawData.length
            returnedPoints := responseData.length
            downsampled := decide ((rawData.length : Int) > maxPoints)
            data := responseData
            isDemo := false }

/-! ## Definitions taken from the specification text (for refinement
claims, compared against the definitions from the source) -/

/-- The nearest-rank percentile as the specification words it: the element
of a sorted copy at index ceil(N * p) - 1 clamped to the range 0..N-1
(0 on an empty array, matching the source guard). -/
def specNearestRank (values : List ℚ) (p : ℚ) : ℚ :=
  if values.length = 0 then 0
  else
    let sorted := orderBy id values
    let index := min (max 0 (⌈(sorted.length : ℚ) * p⌉ - 1)) ((sorted.length : Int) - 1)
    sorted.getD index.toNat 0

/-- The quality-score formula as claim C4 words it: 100 minus
min(30, 2*max(0, ahi-5)) minus min(20, max(0, ahi-15)) minus
min(20, max(0, largeLeakPercent-10)) minus min(30, max(0, 80-usagePercent))
with usagePercent = maskOnMinutes/totalMinutes*100, rounded and clamped to
0..100. In ℚ the division at totalMinutes = 0 yields 0, which coincides
with the source guard. -/
def specQualityScore (ahi largeLeakPercent maskOnMinutes totalMinutes : ℚ) : ℚ :=
  let usagePercent := maskOnMinutes / totalMinutes * 100
  let raw := 100 - min 30 (2 * max 0 (ahi - 5)) - min 20 (max 0 (ahi - 15))
      - min 20 (max 0 (largeLeakPercent - 10)) - min 30 (max 0 (80 - usagePercent))
  max 0 (min 100 ((jsRound raw : ℚ)))

/-! ## Shared lemmas -/

/-- Inserting stably preserves length. -/
theorem insertSortedBy_length (key : α → ℚ) (x : α) (l : List α) :
    (insertSortedBy key x l).length = l.length + 1 := by
  induction l with
  | nil => rfl
  | cons y ys ih =>
    simp only [insertSortedBy]
    split
    · simp [ih]
    · simp

/-- Sorting preserves length. -/
theorem orderBy_length (key : α → ℚ) (l : List α) :
    (orderBy key l).length = l.length := by
  induction l with
  | nil => rfl
  | cons x xs ih => simp [orderBy, insertSortedBy_length, ih]

/-- Inserting an element whose key is strictly below every key of the list
puts it in front. -/
theorem insertSortedBy_eq_cons (key : α → ℚ) (x : α) (l : List α)
    (h : ∀ y ∈ l, key x < key y) : insertSortedBy key x l = x :: l := by
  cases l with
  | nil => rfl
  | cons y ys =>
    simp only [insertSortedBy]
    rw [if_neg]
    exact not_le.mpr (h y (List.mem_cons_self y ys))

/-- Sorting a list already strictly sorted by its key returns it
unchanged. -/
theorem orderBy_eq_self (key : α → ℚ) (l : List α)
    (h : l.Pairwise (fun a b => key a < key b)) : orderBy key l = l := by
  induction l with
  | nil => rfl
  | cons x xs ih =>
    rw [List.pairwise_cons] at h
    simp only [orderBy, ih h.2]
    exact insertSortedBy_eq_cons key x xs h.1

/-- The LTTB selection loop emits one point per remaining iteration. -/
theorem lttbLoop_length (data : List Point) (bucketSize : ℚ) (i a fuel : Nat) :
    (lttbLoop data bucketSize i a fuel).length = fuel := by
  induction fuel generalizing i a with
  | zero => rfl
  | succ n ih => simp [lttbLoop, ih]

/-- Evaluation rule for jsRound. -/
theorem jsRound_eq (q : ℚ) (n : Int) (h1 : (n : ℚ) ≤ q + 1 / 2)
    (h2 : q + 1 / 2 < n + 1) : jsRound q = n :=
  Int.floor_eq_iff.mpr ⟨h1, by exact_mod_cast h2⟩

/-! ## Claim C4: the sleep-quality-score formula -/

/-- The AHI-above-5 deduction in branchless form. -/
theorem qs_ahi5_term (a : ℚ) :
    (if a > 5 then min 30 ((a - 5) * 2) else 0) = min 30 (2 * max 0 (a - 5)) := by
  split
  · rw [max_eq_right (by linarith), mul_comm]
  · rw [max_eq_left (by linarith), mul_zero, min_eq_right (by norm_num)]

/-- The AHI-above-15 deduction in branchless form. -/
theorem qs_ahi15_term (a : ℚ) :
    (if a > 15 then min 20 ((a - 15) * 1) else 0) = min 20 (max 0 (a - 15)) := by
  split
  · rw [max_eq_right (by linarith), mul_one]
  · rw [max_eq_left (by linarith), min_eq_right (by norm_num)]

/-- The low-usage deduction in branchless form. -/
theorem qs_usage_term (u : ℚ) :
    (if u < 80 then min 30 (80 - u) else 0) = min 30 (max 0 (80 - u)) := by
  split
  · rw [max_eq_right (by linarith)]
  · rw [max_eq_left (by linarith), min_eq_right (by norm_num)]

/-- Pulling a conditional deduction out of the branch. -/
theorem if_sub_cond (c : Prop) [Decidable c] (s d : ℚ) :
    (if c then s - d else s) = s - (if c then d else 0) := by
  split <;> simp

/-- C4, counterexample: at ahi = 0, largeLeakPercent = 15, maskOnMinutes =
totalMinutes = 100, the source deducts min(20, 15) = 15 leak points and
scores 85, while the claimed formula deducts min(20, 15 - 10) = 5 and
yields 95, so the claimed formula does not match the code. -/
theorem spec_C4_counterexample :
    calculateSleepQualityScore 0 15 100 100 = 85 ∧
    specQualityScore 0 15 100 100 = 95 ∧
    calculateSleepQualityScore 0 15 100 100 ≠ specQualityScore 0 15 100 100 := by
  have h1 : calculateSleepQualityScore 0 15 100 100 = 85 := by
    have hr : jsRound 85 = 85 := jsRound_eq 85 85 (by norm_num) (by norm_num)
    norm_num [calculateSleepQualityScore, hr]
  have h2 : specQualityScore 0 15 100 100 = 95 := by
    have hr : jsRound 95 = 95 := jsRound_eq 95 95 (by norm_num) (by norm_num)
    norm_num [specQualityScore, hr]
  refine ⟨h1, h2, ?_⟩
  rw [h1, h2]
  norm_num

/-- C4, amended: for all inputs the quality score equals 100 minus
min(30, 2·max(0, ahi−5)) minus min(20, max(0, ahi−15)) minus
(min(20, largeLeakPercent) when largeLeakPercent > 10, else 0 — the
deduction is the full leak percentage capped at 20, not its excess over
10) minus min(30, max(0, 80−usagePercent)), where usagePercent is
maskOnMinutes/totalMinutes×100 guarded to 0 when totalMinutes is 0,
rounded to the nearest integer and clamped to the range 0..100. -/
theorem spec_C4_quality_score_formula (a l m t : ℚ) :
    calculateSleepQualityScore a l m t =
      max 0 (min 100 ((jsRound
        (100 - min 30 (2 * max 0 (a - 5)) - min 20 (max 0 (a - 15))
          - (if l > 10 then min 20 l else 0)
          - min 30 (max 0 (80 - (if t > 0 then m / t * 100 else 0)))) : ℚ))) := by
  simp only [calculateSleepQualityScore, qs_ahi5_term, qs_ahi15_term, qs_usage_term,
    if_sub_cond]

/-! ## Claim C8: the AHI guard -/

/-- C8: for every sealed session accumulator the computed ahi equals
total_events / usage_hours when usage_hours > 0 (usage_hours being
mask_on_minutes / 60) and 0 when usage_hours = 0, and it is never
negative. Over ℚ the value is a well-defined rational for all inputs
(there is no NaN or infinity to produce; the guard keeps the division-by-
zero case out). -/
theorem spec_C8_ahi_guarded (session : SessionAccumulator) (path : String) :
    (computeNightlyAggregate session path).mask_on_minutes =
      (session.stats.maskOnCount : ℚ) / 25 / 60 ∧
    (computeNightlyAggregate session path).total_events = session.events.length ∧
    (computeNightlyAggregate session path).ahi =
      (if (computeNightlyAggregate session path).mask_on_minutes / 60 > 0 then
        ((computeNightlyAggregate session path).total_events : ℚ) /
          ((computeNightlyAggregate session path).mask_on_minutes / 60)
      else 0) ∧
    0 ≤ (computeNightlyAggregate session path).ahi := by
  refine ⟨rfl, rfl, rfl, ?_⟩
  show (0 : ℚ) ≤ (computeNightlyAggregate session path).ahi
  simp only [computeNightlyAggregate]
  split
  · exact div_nonneg (by positivity) (le_of_lt (by assumption))
  · exact le_refl 0

/-! ## Claim C5: median and percentile -/

/-- C5, counterexample: on the sorted array 1,2,3,4 the nearest-rank rule
at p = 1/2 (index ceil(4·1/2) − 1 = 1) yields 2, but calculateMedian
averages the two middle elements and yields 5/2 — the very fixture value
the claim also asserts — so the median is not computed by nearest-rank. -/
theorem spec_C5_counterexample :
    specNearestRank [1, 2, 3, 4] (1 / 2) = 2 ∧
    calculateMedian [1, 2, 3, 4] = 5 / 2 ∧
    specNearestRank [1, 2, 3, 4] (1 / 2) ≠ calculateMedian [1, 2, 3, 4] := by
  have hsort : orderBy id [(1 : ℚ), 2, 3, 4] = [1, 2, 3, 4] := by
    norm_num [orderBy, insertSortedBy]
  have h1 : specNearestRank [1, 2, 3, 4] (1 / 2) = 2 := by
    have hc : ⌈(4 : ℚ) * (1 / 2)⌉ = 2 := by norm_num
    norm_num [specNearestRank, hsort, hc]
  have h2 : calculateMedian [1, 2, 3, 4] = 5 / 2 := by
    norm_num [calculateMedian, hsort]
  exact ⟨h1, h2, by rw [h1, h2]; norm_num⟩

/-- C5, amended: the p-th percentile is computed by nearest-rank on a
sorted copy at index ceil(N·p) − 1 clamped below at 0 (for p ≤ 1 the
missing upper clamp of the source is vacuous, so it agrees with the
claimed clamp to 0..N−1); the median however is the average of the two
middle elements for even N, agreeing with nearest-rank at p = 1/2 only
for odd N; on the fixture 1,2,3,4 the median is 5/2 and the 95th
percentile is 4. -/
theorem spec_C5_percentile_nearest_rank :
    (∀ (values : List ℚ) (p : ℚ), p ≤ 1 →
      calculatePercentile values p = specNearestRank values p) ∧
    (∀ values : List ℚ, values.length % 2 = 1 →
      calculateMedian values = specNearestRank values (1 / 2)) ∧
    calculateMedian [1, 2, 3, 4] = 5 / 2 ∧
    calculatePercentile [1, 2, 3, 4] (95 / 100) = 4 := by
  have hsort : orderBy id [(1 : ℚ), 2, 3, 4] = [1, 2, 3, 4] := by
    norm_num [orderBy, insertSortedBy]
  refine ⟨?_, ?_, ?_, ?_⟩
  · intro values p hp
    simp only [calculatePercentile, specNearestRank]
    by_cases h0 : values.length = 0
    · simp [h0]
    · rw [if_neg h0, if_neg h0]
      have hlen : (orderBy id values).length = values.length := orderBy_length id values
      have hN : 1 ≤ (orderBy id values).length := by
        rw [hlen]; omega
      have hceil : ⌈((orderBy id values).length : ℚ) * p⌉ ≤ ((orderBy id values).length : Int) := by
        rw [Int.ceil_le]
        push_cast
        exact mul_le_of_le_one_right (by positivity) hp
      have hmin : min (max 0 (⌈((orderBy id values).length : ℚ) * p⌉ - 1))
          (((orderBy id values).length : Int) - 1) =
          max 0 (⌈((orderBy id values).length : ℚ) * p⌉ - 1) := by
        apply min_eq_left
        apply max_le <;> omega
      rw [hmin]
  · intro values hodd
    simp only [calculateMedian, specNearestRank]
    have h0 : ¬ values.length = 0 := by omega
    rw [if_neg h0, if_neg h0]
    have hlen : (orderBy id values).length = values.length := orderBy_length id values
    obtain ⟨k, hk⟩ : ∃ k, values.length = 2 * k + 1 := ⟨values.length / 2, by omega⟩
    have hmod : ¬ (orderBy id values).length % 2 = 0 := by rw [hlen]; omega
    rw [if_neg hmod]
    have hceil : ⌈((orderBy id values).length : ℚ) * (1 / 2)⌉ = (k : Int) + 1 := by
      rw [hlen, hk, Int.ceil_eq_iff]
      push_cast
      constructor <;> linarith
    have hidx : min (max 0 (⌈((orderBy id values).length : ℚ) * (1 / 2)⌉ - 1))
        (((orderBy id values).length : Int) - 1) = (k : Int) := by
      rw [hceil, hlen, hk]
      simp only [add_sub_cancel_right]
      rw [max_eq_right (by positivity)]
      apply min_eq_left
      omega
    rw [hidx]
    have hmid : (orderBy id values).length / 2 = k := by rw [hlen, hk]; omega
    rw [hmid]
    norm_num
  · norm_num [calculateMedian, hsort]
  · have hc : ⌈(19 / 5 : ℚ)⌉ = 4 := by
      rw [Int.ceil_eq_iff]
      norm_num
    norm_num [calculatePercentile, hsort, hc]
    rfl

/-- C5, witness: the universally quantified parts of the amended theorem
instantiated at the fixture. -/
theorem spec_C5_witness :
    calculatePercentile [1, 2, 3, 4] (1 / 2) = specNearestRank [1, 2, 3, 4] (1 / 2) ∧
    calculateMedian [1, 2, 3] = specNearestRank [1, 2, 3] (1 / 2) :=
  ⟨spec_C5_percentile_nearest_rank.1 [1, 2, 3, 4] (1 / 2) (by norm_num),
   spec_C5_percentile_nearest_rank.2.1 [1, 2, 3] (by norm_num)⟩

/-! ## Claim C3: LTTB length, first and last element -/

/-- A three-point probe series for the LTTB counterexample. -/
def lttbProbe : List Point := [⟨0, 0⟩, ⟨1, 5⟩, ⟨2, 1⟩]

/-- C3, counterexample: at target 1 on a three-point input the output has
the first and last point and therefore length 2, not
min(target, inputLength) = 1 (the selection loop runs max(0, target-2)
times but the first and last points are always pushed). -/
theorem spec_C3_counterexample :
    (lttbDownsample lttbProbe 1).length = 2 ∧
    min (1 : Int) ((lttbProbe.length : Int)) = 1 ∧
    ((lttbDownsample lttbProbe 1).length : Int) ≠ min 1 ((lttbProbe.length : Int)) := by
  refine ⟨by decide, by decide, by decide⟩

/-- C3, amended: when the input length is at most the target the input is
returned unchanged (for every target); when 2 <= target < inputLength the
output has exactly target points and its first and last elements equal
the first and last elements of the input. (For target < 2 with a longer
input the source still emits the first and last point, so the output has
length 2 rather than min(target, inputLength).) -/
theorem spec_C3_lttb_shape (data : List Point) (t : Int) :
    ((data.length : Int) ≤ t → lttbDownsample data t = data) ∧
    (2 ≤ t → t < (data.length : Int) →
      ((lttbDownsample data t).length : Int) = t ∧
      (lttbDownsample data t).head? = data.head? ∧
      (lttbDownsample data t).getLast? = data.getLast?) := by
  constructor
  · intro h
    simp [lttbDownsample, h]
  · intro h2 hlt
    have hnot : ¬ (data.length : Int) ≤ t := not_le.mpr hlt
    have hne : data ≠ [] := by
      intro hnil
      rw [hnil] at hlt
      simp at hlt
      omega
    refine ⟨?_, ?_, ?_⟩
    · simp only [lttbDownsample, if_neg hnot, List.length_cons, List.length_append,
        List.length_singleton, lttbLoop_length]
      have htn : ((t - 2).toNat : Int) = t - 2 := Int.toNat_of_nonneg (by omega)
      push_cast [htn]
      norm_num
      omega
    · obtain ⟨d0, rest, rfl⟩ : ∃ d0 rest, data = d0 :: rest := by
        cases data with
        | nil => exact absurd rfl hne
        | cons a l => exact ⟨a, l, rfl⟩
      simp only [lttbDownsample, if_neg hnot]
      rfl
    · simp only [lttbDownsample, if_neg hnot]
      rw [← List.cons_append, List.getLast?_concat]
      rw [List.getLast?_eq_getElem? data]
      have hlt2 : data.length - 1 < data.length := by
        have : data.length ≠ 0 := fun h => hne (List.length_eq_zero.mp h)
        omega
      rw [List.getD_eq_getElem?_getD, List.getElem?_eq_getElem hlt2]
      rfl

/-- C3, witness: the amended theorem applied at a five-point input with
target 7 (input returned unchanged) and target 3 (three points, first and
last preserved). -/
theorem spec_C3_witness :
    lttbDownsample [⟨0, 0⟩, ⟨1, 5⟩, ⟨2, 1⟩, ⟨3, 9⟩, ⟨4, 2⟩] 7 =
      [⟨0, 0⟩, ⟨1, 5⟩, ⟨2, 1⟩, ⟨3, 9⟩, ⟨4, 2⟩] ∧
    (((lttbDownsample [Point.mk 0 0, ⟨1, 5⟩, ⟨2, 1⟩, ⟨3, 9⟩, ⟨4, 2⟩] 3).length : Int) = 3 ∧
      (lttbDownsample [Point.mk 0 0, ⟨1, 5⟩, ⟨2, 1⟩, ⟨3, 9⟩, ⟨4, 2⟩] 3).head? =
        some (Point.mk 0 0) ∧
      (lttbDownsample [Point.mk 0 0, ⟨1, 5⟩, ⟨2, 1⟩, ⟨3, 9⟩, ⟨4, 2⟩] 3).getLast? =
        some (Point.mk 4 2)) :=
  ⟨(spec_C3_lttb_shape [⟨0, 0⟩, ⟨1, 5⟩, ⟨2, 1⟩, ⟨3, 9⟩, ⟨4, 2⟩] 7).1 (by norm_num),
   (spec_C3_lttb_shape [Point.mk 0 0, ⟨1, 5⟩, ⟨2, 1⟩, ⟨3, 9⟩, ⟨4, 2⟩] 3).2
     (by norm_num) (by norm_num)⟩

/-! ## Claim C1: repeated writes for one session -/

/-- A first-batch sample (timestamp 1000 ms). -/
def sampleA : RawSample := ⟨1000, 10, 8, 2, 1⟩

/-- A second-batch sample (timestamp 2000 ms). -/
def sampleB : RawSample := ⟨2000, 20, 9, 3, 0⟩

/-- The store after writing batch [sampleA] for session s1. -/
def storeA : FileStore := (writeToParquet FileStore.empty "s1" [sampleA]).1

/-- The store after then writing batch [sampleB] for the same session. -/
def storeAB : FileStore := (writeToParquet storeA "s1" [sampleB]).1

/-- C1: writeToParquet copies every batch to the same per-session path, so
a second invocation for the same session id replaces the file wholesale:
afterwards only the last batch is readable (readers open the single file;
there are no part files to union). At the concrete two-batch input, a
full-range Micro read returns only the second batch and the sample of the
first batch is gone. -/
theorem spec_C1_writer_overwrites :
    (∀ (store : FileStore) (sid : String) (b1 b2 : List RawSample),
      (writeToParquet (writeToParquet store sid b1).1 sid b2).1 (getParquetPath sid) =
        some b2) ∧
    storeAB (getParquetPath "s1") = some [sampleB] ∧
    getMicroView storeAB "s1" 0 3000 = .ok [sampleB] ∧
    sampleA ∉ [sampleB] := by
  refine ⟨?_, ?_, ?_, ?_⟩
  · intro store sid b1 b2
    simp [writeToParquet]
  · rfl
  · rfl
  · intro h
    simp only [List.mem_singleton] at h
    have := congrArg RawSample.timestamp h
    simp [sampleA, sampleB] at this

/-! ## Claim C10: the flushed parquet path of an empty session -/

/-- A one-night CSV fixture whose only data row is an event, so the
session accumulates zero raw samples and no parquet file is written. -/
def eventsOnlyLines : List String :=
  ["timestamp,event_type,event_duration", "2024-01-01T00:00:00Z,apnea,10"]

/-- C10: flushSession records the deterministic parquet path of the
session in the report before checking anything, and appendToParquet is a
no-op on an empty buffer, so a session with zero raw samples (for
example an events-only session) contributes a parquetFiles entry although
no file exists at that path. The closed part runs the full ingest on the
events-only fixture: the report lists the path of session 19723-0 (day
19723 = 2024-01-01), the store still has no file there, one event was
imported and no night was written. -/
theorem spec_C10_flush_records_missing_path :
    (∀ (st : IngestState) (session : SessionAccumulator), session.samples = [] →
      (flushSession st session).store = st.store ∧
      (flushSession st session).result.parquetFiles =
        st.result.parquetFiles ++ [getParquetPath session.sessionId]) ∧
    ((ingestCPAPStreamingCSV FileStore.empty [] eventsOnlyLines).result.parquetFiles =
        [getParquetPath "19723-0"] ∧
      (ingestCPAPStreamingCSV FileStore.empty [] eventsOnlyLines).store
        (getParquetPath "19723-0") = none ∧
      (ingestCPAPStreamingCSV FileStore.empty [] eventsOnlyLines).result.eventsImported = 1 ∧
      (ingestCPAPStreamingCSV FileStore.empty [] eventsOnlyLines).result.nightsImported = 0) := by
  constructor
  · intro st session h
    have hlen : ¬ session.samples.length > 0 := by rw [h]; simp
    simp only [flushSession, if_neg hlen]
    split <;> exact ⟨rfl, rfl⟩
  · refine ⟨by decide, by decide, by decide, by decide⟩

/-- C10, witness: the universally quantified part of the theorem applied
to a fresh (hence sample-free) accumulator over the empty store. -/
theorem spec_C10_witness :
    (flushSession (initialState FileStore.empty []) (newAccumulator "x" 0)).store =
      (initialState FileStore.empty []).store ∧
    (flushSession (initialState FileStore.empty []) (newAccumulator "x" 0)).result.parquetFiles =
      (initialState FileStore.empty []).result.parquetFiles ++ [getParquetPath "x"] :=
  spec_C10_flush_records_missing_path.1 (initialState FileStore.empty [])
    (newAccumulator "x" 0) rfl

/-! ## Claim C2: malformed rows -/

/-- A stream whose second line has an unparseable (but nonempty) timestamp
and whose third line is well-formed. -/
def badTimestampLines : List String :=
  ["timestamp,pressure", "notatime,7", "2024-01-01T00:00:00Z,8"]

/-- C2, counterexample: on badTimestampLines the nonempty unparseable
timestamp "notatime" makes toISOString throw, the top-level catch records
one error and the loop stops, so the following well-formed row is never
processed: samplesProcessed stays 0, although the claim requires
ingestion to continue with all subsequent rows (which would give
samplesProcessed = 1 for the final row, which is parseable). -/
theorem spec_C2_counterexample :
    (ingestCPAPStreamingCSV FileStore.empty [] badTimestampLines).result.samplesProcessed = 0 ∧
    (ingestCPAPStreamingCSV FileStore.empty [] badTimestampLines).result.errors =
      ["Streaming ingest failed: RangeError: Invalid time value"] ∧
    jsDate? "notatime" = none ∧
    jsDate? "2024-01-01T00:00:00Z" = some 1704067200000 := by
  refine ⟨by decide, by decide, by decide, by decide⟩

/-- C2, amended: a data row with a column-count mismatch, or with a
missing or empty timestamp cell, is skipped — the state is unchanged
except for the line counter, so no processed counter moves — and the
stream continues; but a row whose timestamp cell is nonempty yet
unparseable is not skipped: it throws, which aborts the remainder of the
stream (recorded as one error by the top-level catch). -/
theorem spec_C2_malformed_row_handling :
    (∀ (st : IngestState) (line : String),
      st.lineNumber ≠ 0 →
      jsTrim line ≠ "" →
      (((jsSplit ',' line).map jsTrim).length ≠ st.headers.length ∨
        (parseRow st.headers ((jsSplit ',' line).map jsTrim)).timestamp = none ∨
        (parseRow st.headers ((jsSplit ',' line).map jsTrim)).timestamp = some "") →
      processLine st line = .next { st with lineNumber := st.lineNumber + 1 }) ∧
    (∀ (st : IngestState) (line tsStr : String),
      st.lineNumber ≠ 0 →
      jsTrim line ≠ "" →
      ((jsSplit ',' line).map jsTrim).length = st.headers.length →
      (parseRow st.headers ((jsSplit ',' line).map jsTrim)).timestamp = some tsStr →
      tsStr ≠ "" →
      jsDate? tsStr = none →
      processLine st line = .abort { st with lineNumber := st.lineNumber + 1 }
        "Streaming ingest failed: RangeError: Invalid time value") := by
  constructor
  · intro st line h1 h2 h3
    have h1' : ¬ (st.lineNumber + 1 = 1) := by omega
    by_cases hlen : ((jsSplit ',' line).map jsTrim).length = st.headers.length
    · rcases h3 with hl | hts | hts
      · exact absurd hlen hl
      · simp [processLine, h2, h1', hlen, hts]
      · simp [processLine, h2, h1', hlen, hts]
    · simp only [processLine, if_neg h2, if_neg h1']
      rw [if_pos hlen]
  · intro st line tsStr h1 h2 hlen hts htne hdate
    have h1' : ¬ (st.lineNumber + 1 = 1) := by omega
    simp [processLine, h2, h1', hlen, hts, htne, hdate]

/-- A partially advanced ingest state (header row already consumed) for
the C2 witness. -/
def stW : IngestState :=
  { initialState FileStore.empty [] with
    lineNumber := 1
    headers := ["timestamp", "pressure"] }

/-- C2, witness: the amended theorem applied to a concrete column-count
mismatch ("1,2,3" against two headers) and to a concrete unparseable
timestamp row ("zzz,1"). -/
theorem spec_C2_witness :
    processLine stW "1,2,3" = .next { stW with lineNumber := stW.lineNumber + 1 } ∧
    processLine stW "zzz,1" = .abort { stW with lineNumber := stW.lineNumber + 1 }
      "Streaming ingest failed: RangeError: Invalid time value" :=
  ⟨spec_C2_malformed_row_handling.1 stW "1,2,3" (by decide) (by decide) (by decide),
   spec_C2_malformed_row_handling.2 stW "zzz,1" "zzz" (by decide) (by decide) (by decide)
     (by decide) (by decide) (by decide)⟩

/-! ## Claim C6: meso bucket alignment -/

/-- First meso fixture sample, at timestamp 0. -/
def mesoS0 : RawSample := ⟨0, 10, 8, 2, 1⟩

/-- Second meso fixture sample, at timestamp 30000 ms — inside the same
60-second bucket as the first. -/
def mesoS30 : RawSample := ⟨30000, 20, 9, 3, 1⟩

/-- The store holding the two-sample session m. -/
def mesoStore : FileStore := (writeToParquet FileStore.empty "m" [mesoS0, mesoS30]).1

/-- C6: the meso grouping key (timestamp / bucketMs) * bucketMs uses the
DuckDB division operator, which is float division on integers, so the key
reproduces each timestamp: the two samples of one intended 60-second
bucket come back as two buckets, the second with bucket_start 30000,
which is no integer multiple of bucketMs = 60000; the prescribed floor
key would put both at 0, and the single intended bucket would carry
flow_avg = mean 10 20 = 15. -/
theorem spec_C6_meso_buckets_unaligned :
    getMesoView mesoStore "m" 60 = .ok
      [{ bucket_start := 0, flow_min := 10, flow_max := 10, flow_avg := 10,
         pressure_avg := 8, leak_max := 2, mask_on_pct := 100 },
       { bucket_start := 30000, flow_min := 20, flow_max := 20, flow_avg := 20,
         pressure_avg := 9, leak_max := 3, mask_on_pct := 100 }] ∧
    (∀ k : Int, (k : ℚ) * 60000 ≠ 30000) ∧
    specBucketStart 60000 0 = 0 ∧
    specBucketStart 60000 30000 = 0 ∧
    qAvg [mesoS0.flow_rate, mesoS30.flow_rate] = 15 := by
  refine ⟨?_, ?_, by decide, by decide, ?_⟩
  · norm_num [getMesoView, mesoStore, writeToParquet, getParquetPath, FileStore.empty,
      mesoBucketStart, orderBy, insertSortedBy, List.dedup, qMin, qMax, qAvg, qSum,
      mesoS0, mesoS30]
  · intro k h
    have hk : (k * 60000 : Int) = 30000 := by exact_mod_cast h
    omega
  · norm_num [qAvg, qSum, mesoS0, mesoS30]

/-! ## Claim C7: NotFound for sessions without a columnar file -/

/-- A nightly-aggregates row for session s1 (as flushSession would write
it for an empty accumulator); no parquet file exists for s1. -/
def c7Agg : NightlyAggregate :=
  computeNightlyAggregate (newAccumulator "s1" 19723) (getParquetPath "s1")

/-- C7, counterexample: session s1 has an aggregate row but no columnar
file; the claim requires a NotFound error distinguished from internal
errors, but both routes catch the thrown "Parquet file not found" and
answer 500 — the internal-error status. -/
theorem spec_C7_counterexample :
    parquetExists FileStore.empty "s1" = false ∧
    (mesoGET [c7Agg] FileStore.empty "s1" 60).status = 500 ∧
    (mesoGET [c7Agg] FileStore.empty "s1" 60).error =
      some "Parquet file not found for session: s1" ∧
    (microGET [c7Agg] FileStore.empty "s1" 500 1500 10).status = 500 := by
  refine ⟨by decide, by decide, by decide, by decide⟩

/-- C7, amended: a Meso or Micro query naming a session id with no
nightly-aggregates row fails with 404 Session not found, distinguished
from the 400 bad-request statuses and from 500; but a session that has an
aggregates row while its columnar file is absent fails with 500, the same
status as an internal error, not with NotFound. -/
theorem spec_C7_notfound_vs_missing_file :
    (∀ (aggregates : List NightlyAggregate) (store : FileStore) (sid : String) (b : Int),
      findSession aggregates sid = none → ¬ (b < 1 ∨ b > 300) →
      mesoGET aggregates store sid b =
        { status := 404, error := some "Session not found", totalBuckets := 0,
          data := [], isDemo := false }) ∧
    (∀ (aggregates : List NightlyAggregate) (store : FileStore) (sid : String)
        (startTime endTime targetPoints : Int),
      findSession aggregates sid = none →
      ¬ (startTime = 0 ∨ endTime = 0) → ¬ (endTime ≤ startTime) →
      microGET aggregates store sid startTime endTime targetPoints =
        { status := 404, error := some "Session not found", originalPoints := 0,
          returnedPoints := 0, downsampled := false, data := [], isDemo := false }) ∧
    (mesoGET [c7Agg] FileStore.empty "s1" 60).status = 500 ∧
    (microGET [c7Agg] FileStore.empty "s1" 500 1500 10).status = 500 ∧
    (404 ≠ 400 ∧ 404 ≠ 500 ∧ 400 ≠ 500) := by
  refine ⟨?_, ?_, by decide, by decide, by decide⟩
  · intro aggregates store sid b h404 hb
    simp [mesoGET, hb, h404]
  · intro aggregates store sid startTime endTime targetPoints h404 hse hts
    simp [microGET, hse, hts, h404]

/-- C7, witness: the amended theorem applied to a session id that has no
aggregates row, for both routes. -/
theorem spec_C7_witness :
    mesoGET [] FileStore.empty "nope" 60 =
      { status := 404, error := some "Session not found", totalBuckets := 0,
        data := [], isDemo := false } ∧
    microGET [] FileStore.empty "nope" 500 1500 10 =
      { status := 404, error := some "Session not found", originalPoints := 0,
        returnedPoints := 0, downsampled := false, data := [], isDemo := false } :=
  ⟨spec_C7_notfound_vs_missing_file.1 [] FileStore.empty "nope" 60 rfl (by decide),
   spec_C7_notfound_vs_missing_file.2.1 [] FileStore.empty "nope" 500 1500 10 rfl
     (by decide) (by decide)⟩

/-! ## Claim C9: write/read round-trip on the micro path -/

/-- C9, counterexample: batch [sampleA] was written for session s1 and
then a second batch [sampleB] was written (as one ingestion pass does per
50k rows); a Micro query covering the first batch (range 500..1500,
which contains sampleA at 1000, with target 10 >= 1 row in range) comes
back 200 with downsampled = false but returns no data at all — the first
batch was destroyed by the second write — so it does not return every
original sample of a written batch. -/
theorem spec_C9_counterexample :
    (microGET [c7Agg] storeAB "s1" 500 1500 10).status = 200 ∧
    (microGET [c7Agg] storeAB "s1" 500 1500 10).data = [] ∧
    (microGET [c7Agg] storeAB "s1" 500 1500 10).downsampled = false ∧
    500 ≤ sampleA.timestamp ∧ sampleA.timestamp ≤ 1500 := by
  refine ⟨by decide, by decide, by decide, by decide, by decide⟩

/-- C9, amended: for a session whose samples were written by a single
writeToParquet invocation (strictly increasing timestamps), a Micro range
query covering them whose target is at least the row count and whose row
count is also within the 10000-point cap returns every original sample
unchanged and in timestamp order, with downsampled = false. (Two
restrictions are forced by the source: a second batch write destroys the
first batch, and the route caps the effective target at 10000.) -/
theorem spec_C9_roundtrip_single_batch
    (store : FileStore) (aggregates : List NightlyAggregate) (sid : String)
    (samples : List RawSample) (startTime endTime targetPoints : Int)
    (hdemo : isDemoSession sid = false)
    (hfind : (findSession aggregates sid).isSome)
    (hsorted : List.Pairwise (fun a b => a.timestamp < b.timestamp) samples)
    (hcover : ∀ r ∈ samples, startTime ≤ r.timestamp ∧ r.timestamp ≤ endTime)
    (hs : startTime ≠ 0) (he : endTime ≠ 0) (hlt : startTime < endTime)
    (hlen : (samples.length : Int) ≤ min targetPoints 10000) :
    microGET aggregates (writeToParquet store sid samples).1 sid
        startTime endTime targetPoints =
      { status := 200, error := none, originalPoints := samples.length,
        returnedPoints := samples.length, downsampled := false,
        data := samples, isDemo := false } := by
  have hse : ¬ (startTime = 0 ∨ endTime = 0) := by tauto
  have hend : ¬ (endTime ≤ startTime) := not_le.mpr hlt
  obtain ⟨row, hrow⟩ : ∃ r, findSession aggregates sid = some r :=
    Option.isSome_iff_exists.mp hfind
  have hfilter : samples.filter
      (fun r => decide (startTime ≤ r.timestamp ∧ r.timestamp ≤ endTime)) = samples :=
    List.filter_eq_self.mpr (fun r hr => decide_eq_true (hcover r hr))
  have hstore : (writeToParquet store sid samples).1 (getParquetPath sid) = some samples := by
    simp [writeToParquet]
  have hmicro : getMicroView (writeToParquet store sid samples).1 sid startTime endTime =
      .ok samples := by
    simp only [getMicroView, hstore, hfilter]
    rw [orderBy_eq_self (fun r : RawSample => (r.timestamp : ℚ)) samples
      (hsorted.imp (fun h => Int.cast_lt.mpr h))]
  have hnotover : ¬ ((samples.length : Int) > min targetPoints 10000) := not_lt.mpr hlen
  simp only [microGET, if_neg hse, if_neg hend, hrow, hdemo, Bool.false_eq_true,
    if_false, hmicro, if_neg hnotover]
  simp [decide_eq_false hnotover]
  constructor
  · exact le_trans hlen (min_le_left _ _)
  · exact_mod_cast le_trans hlen (min_le_right _ _)

/-- C9, witness: the amended round-trip theorem applied to the two-sample
batch written once for session s1 and read back over 500..2500 with
target 10. -/
theorem spec_C9_witness :
    microGET [c7Agg] (writeToParquet FileStore.empty "s1" [sampleA, sampleB]).1 "s1"
        500 2500 10 =
      { status := 200, error := none, originalPoints := 2, returnedPoints := 2,
        downsampled := false, data := [sampleA, sampleB], isDemo := false } :=
  spec_C9_roundtrip_single_batch FileStore.empty [c7Agg] "s1" [sampleA, sampleB]
    500 2500 10 (by decide) (by decide) (by decide) (by decide) (by decide) (by decide)
    (by decide) (by decide)

end CpapInsight
